import Mathlib

/-!
Shallow embedding of `src/full_file.py` (a Streamlit app with three tools:
PDF Chat, CSV Chat, PPT From PDF).  The parts embedded here are the ones the
claims are about:

* the slide-structure parser (lines 207-213): `re.split` / `re.findall` with
  the pattern `\*\*Slide \d+:.*?\*\*`, the per-slide `re.search` for
  `\*\*Title:\*\*\s*(.*)` and `re.findall` for `\*\s+(.*)`;
* the conversation-turn handler of `pdf_chat` (lines 75-86) and `csv_chat`
  (lines 136-147), which are textually identical up to the session key;
* the text-extraction block of `ppt_from_pdf` (lines 156-174) with its
  pdfplumber-then-PyPDF2 fallback;
* the presentation renderer (lines 200-224), modelled at the level of slide
  titles and body paragraphs.

Strings are modelled as `List Char` (via `String.data`); the regex operations
are hand-compiled to scanning functions that reproduce Python's leftmost,
non-overlapping match semantics for these three concrete patterns.  The `\s`
class is modelled by the Unicode whitespace set Python's `re` uses, and `\d`
by ASCII decimal digits (the digits the model-generated markers contain).
The scanning functions take a fuel argument equal to the input length, which
is sufficient because every step consumes at least one character.
-/

/-- Source line 24: `MAX_SLIDES = 10`. -/
def MAX_SLIDES : Nat := 10

/-- Source line 25: `PROCESSING_CHUNK_SIZE = 15000`. -/
def PROCESSING_CHUNK_SIZE : Nat := 15000

/-- Python's `\s` (and `str.strip()`) whitespace class, Unicode mode. -/
def isPySpace (c : Char) : Bool :=
  c = ' ' || ('\x09' ≤ c && c ≤ '\x0d') || ('\x1c' ≤ c && c ≤ '\x1f') ||
  c = '\x85' || c = '\u00a0' || c = '\u1680' ||
  ('\u2000' ≤ c && c ≤ '\u200a') ||
  c = '\u2028' || c = '\u2029' || c = '\u202f' || c = '\u205f' || c = '\u3000'

/-- Python `str.strip()`: drop leading and trailing whitespace. -/
def pyStrip (l : List Char) : List Char :=
  ((l.dropWhile isPySpace).reverse.dropWhile isPySpace).reverse

/-- Match a literal character sequence `p` at the head of `s`; on success
return the remainder of `s`. -/
def matchLit : List Char → List Char → Option (List Char)
  | [], s => some s
  | _ :: _, [] => none
  | p :: ps, c :: cs => if c = p then matchLit ps cs else none

/-- The lazy tail `.*?\*\*` of the slide-marker pattern: at each position the
engine first tries `\*\*`, else consumes one non-newline character.  Returns
the number of characters matched by `.*?` (the closing `**` adds two more). -/
def lazyLen : List Char → Option Nat
  | [] => none
  | c :: cs =>
    if c = '*' ∧ cs.head? = some '*' then some 0
    else if c = '\n' then none
    else Option.map (fun k => k + 1) (lazyLen cs)

/-- Length of a match of `\*\*Slide \d+:.*?\*\*` (source line 207/208
pattern) anchored at the head of `s`, if any. -/
def markerLen (s : List Char) : Option Nat :=
  match matchLit ("**Slide ".data) s with
  | none => none
  | some s1 =>
    if (s1.takeWhile Char.isDigit) = [] then none
    else
      match s1.dropWhile Char.isDigit with
      | ':' :: s3 =>
        match lazyLen s3 with
        | none => none
        | some k =>
          some (("**Slide ".data).length + (s1.takeWhile Char.isDigit).length + 1 + k + 2)
      | _ => none

/-- One simultaneous scan giving both `re.split` fragments (first component)
and `re.findall` matches (second component) for the slide-marker pattern,
with Python's leftmost non-overlapping semantics: on a match, resume after
it; otherwise advance one character.  `fuel` bounds the recursion and is
instantiated with the input length, which always suffices. -/
def scanAux : Nat → List Char → List (List Char) × List (List Char)
  | 0, s => ([s], [])
  | _ + 1, [] => ([[]], [])
  | fuel + 1, c :: cs =>
    match markerLen (c :: cs) with
    | some n =>
      let res := scanAux fuel ((c :: cs).drop n)
      ([] :: res.1, ((c :: cs).take n) :: res.2)
    | none =>
      let res := scanAux fuel cs
      match res.1 with
      | f :: fs => ((c :: f) :: fs, res.2)
      | [] => ([[c]], res.2)

/-- Source lines 207-208: `slides = re.split(...)`, `headers = re.findall(...)`
on the same string and pattern, computed by one scan. -/
def scanMarkers (s : List Char) : List (List Char) × List (List Char) :=
  scanAux s.length s

/-- Interleave split fragments with the matches separating them; when the
fragments and matches come from one scan of `s`, this reconstructs `s`,
which is what makes "the body following the i-th marker" precise. -/
def joinScan : List (List Char) → List (List Char) → List Char
  | [], _ => []
  | f :: _, [] => f
  | f :: fs, m :: ms => f ++ m ++ joinScan fs ms

/-- Source line 211: `re.search(r'\*\*Title:\*\*\s*(.*)', content)`.  Finds
the leftmost occurrence of the literal `**Title:**`; the group is the text
after the greedy whitespace run, up to the next newline. -/
def searchTitle : List Char → Option (List Char)
  | [] => none
  | c :: cs =>
    match matchLit ("**Title:**".data) (c :: cs) with
    | some rest => some ((rest.dropWhile isPySpace).takeWhile (fun x => ¬ x = '\n'))
    | none => searchTitle cs

/-- Whether the literal `**Title:**` occurs anywhere in `s` (an independent
characterisation of `searchTitle` succeeding). -/
def occursTitle : List Char → Bool
  | [] => false
  | c :: cs => (matchLit ("**Title:**".data) (c :: cs)).isSome || occursTitle cs

/-- A match of the bullet pattern `\*\s+(.*)` (source line 213) anchored at
the head of `s`: a `*`, then a nonempty greedy whitespace run (which may
cross newlines), then the group runs to the next newline.  Returns the group
and the total matched length. -/
def bulletLenAt : List Char → Option (List Char × Nat)
  | '*' :: rest =>
    if rest.takeWhile isPySpace = [] then none
    else
      some ((rest.dropWhile isPySpace).takeWhile (fun c => ¬ c = '\n'),
        1 + (rest.takeWhile isPySpace).length +
          ((rest.dropWhile isPySpace).takeWhile (fun c => ¬ c = '\n')).length)
  | _ => none

/-- `re.findall(r'\*\s+(.*)', content)` scan, fuelled like `scanAux`. -/
def bulletsAux : Nat → List Char → List (List Char)
  | 0, _ => []
  | _ + 1, [] => []
  | fuel + 1, c :: cs =>
    match bulletLenAt (c :: cs) with
    | some (g, n) => g :: bulletsAux fuel ((c :: cs).drop n)
    | none => bulletsAux fuel cs

/-- Source line 213: the list of bullet groups found in a slide body. -/
def findBullets (content : List Char) : List (List Char) :=
  bulletsAux content.length content

/-- A parsed slide record: title and ordered bullets (spec section 3). -/
structure SlideRec where
  title : String
  bullets : List String
deriving DecidableEq

/-- Source lines 211-212: the record's title is the stripped `Title:` group,
else the synthesized fallback `f"Slide {i+2}"`. -/
def recordTitle (i : Nat) (content : List Char) : String :=
  match searchTitle content with
  | some g => String.mk (pyStrip g)
  | none => "Slide " ++ toString (i + 2)

/-- One iteration of the loop body at source lines 209-213 for marker index
`i` with slide body `content`. -/
def buildRecord (i : Nat) (content : List Char) : SlideRec :=
  SlideRec.mk (recordTitle i content) ((findBullets content).map String.mk)

/-- Source lines 209-213: `for i, header in enumerate(headers)` with
`content = slides[i+1] if i+1 < len(slides) else ""`; `List.getD` has exactly
that guarded-indexing semantics. -/
def buildSlides (headers frags : List (List Char)) : List SlideRec :=
  (List.range headers.length).map (fun i => buildRecord i (frags.getD (i + 1) []))

/-- The slide-structure parser end to end (source lines 207-213).  It is a
total function: no operation in the source block can raise. -/
def parseSlides (s : String) : List SlideRec :=
  buildSlides (scanMarkers s.data).2 (scanMarkers s.data).1

/-- A rendered slide, modelled as its title and body paragraphs. -/
structure RSlide where
  title : String
  body : List String
deriving DecidableEq

/-- Source lines 203-205: the title slide carries the presentation title and
a `Generated on <date>` subtitle. -/
def titleSlide (pptTitle dateStr : String) : RSlide :=
  RSlide.mk pptTitle ["Generated on " ++ dateStr]

/-- Source lines 200-224: the presentation is the title slide followed by one
slide per parsed record, whose body paragraphs are the record's bullets. -/
def renderPresentation (pptTitle dateStr : String) (recs : List SlideRec) : List RSlide :=
  titleSlide pptTitle dateStr :: recs.map (fun r => RSlide.mk r.title r.bullets)

/-- A role-tagged conversation message (source: the dicts appended to
`st.session_state.*_chat["messages"]`). -/
structure ChatMessage where
  role : String
  content : String
deriving DecidableEq

/-- Outcome of one conversation turn: the session message list after the
turn (session state persists even when the handler raises), the texts passed
to `st.markdown` inside the turn, and the name of an exception escaping the
handler, if any. -/
structure TurnResult where
  messages : List ChatMessage
  rendered : List String
  raised : Option String
deriving DecidableEq

/-- Source lines 75-86 of `pdf_chat` (lines 136-147 of `csv_chat` are
identical): append the user message; inside try, `send_message`; on success
render the reply; on exception render `f"Error: {e}"`.  The final
`messages.append({"role": "assistant", "content": response.text})` sits
outside the try/except, so on the failure branch the local `response` was
never assigned and that statement raises `UnboundLocalError`, which nothing
catches. -/
def chatTurn (send : String → Except String String) (msgs : List ChatMessage)
    (prompt : String) : TurnResult :=
  let msgs1 := msgs ++ [ChatMessage.mk "user" prompt]
  match send prompt with
  | Except.ok t =>
    TurnResult.mk (msgs1 ++ [ChatMessage.mk "assistant" t]) [prompt, t] none
  | Except.error e =>
    TurnResult.mk msgs1 [prompt, "Error: " ++ e] (some "UnboundLocalError")

/-- Outcome of the text-extraction block: extracted text, or the
`st.error("Failed to extract text.")` + `return` path, or an exception
escaping the handler. -/
inductive ExtractOutcome
  | ok (text : String)
  | errorBanner
  | raised (e : String)
deriving DecidableEq

/-- Source lines 159-165: the pdfplumber loop.  The oracle `exc` models the
library raising after yielding the listed page texts (`some e` at the point
the loop would pull the next page); a page's `extract_text()` returning
`None` or `""` is modelled by the empty string, matching the falsy test
`if page_text:`.  The loop breaks once the accumulated text exceeds
`PROCESSING_CHUNK_SIZE`. -/
def plumberGo (exc : Option String) : List String → Nat → String → String × Option String
  | [], _, text => (text, exc)
  | pt :: rest, i, text =>
    let text1 := if pt = "" then text
      else text ++ "\n\n[Page " ++ toString (i + 1) ++ "]\n" ++ pt
    if PROCESSING_CHUNK_SIZE < text1.length then (text1, none)
    else plumberGo exc rest (i + 1) text1

/-- Source lines 167-171: the PyPDF2 fallback loop, appending raw page texts
to the text already accumulated (the source never resets `text`). -/
def readerGo (exc : Option String) : List String → String → String × Option String
  | [], text => (text, exc)
  | pt :: rest, text =>
    let text1 := text ++ pt
    if PROCESSING_CHUNK_SIZE < text1.length then (text1, none)
    else readerGo exc rest text1

/-- Source lines 156-174: try the pdfplumber loop; on any exception from it
run the PyPDF2 loop (whose own exception nothing catches); finally
`if not text: st.error(...); return`. -/
def extractText (pPages : List String) (pExc : Option String)
    (rPages : List String) (rExc : Option String) : ExtractOutcome :=
  let p := plumberGo pExc pPages 0 ""
  match p.2 with
  | none =>
    if p.1 = "" then ExtractOutcome.errorBanner else ExtractOutcome.ok p.1
  | some _ =>
    let r := readerGo rExc rPages p.1
    match r.2 with
    | some e => ExtractOutcome.raised e
    | none =>
      if r.1 = "" then ExtractOutcome.errorBanner else ExtractOutcome.ok r.1

/-- The concrete input of spec section 8, property 5. -/
def c1Input : String :=
  "**Slide 1: X**\n* **Title:** \"A\"\n* B1\n* B2\n**Slide 2: Y**\n* **Title:** \"C\""

/-- A one-marker input whose slide body has no `Title:` line. -/
def c7Input : String := "**Slide 1: X**\n* B1"

/-- An input with eleven slide markers (one more than `MAX_SLIDES`). -/
def c8Input : String := String.join (List.replicate 11 "**Slide 1: A**")

theorem markerLen_pos (s : List Char) (n : Nat) (h : markerLen s = some n) :
    1 ≤ n := by
  unfold markerLen at h
  split at h
  · exact Option.noConfusion h
  · split at h
    · exact Option.noConfusion h
    · split at h
      · split at h
        · exact Option.noConfusion h
        · have := Option.some.inj h
          omega
      · exact Option.noConfusion h

theorem scanAux_length (fuel : Nat) : ∀ s : List Char,
    (scanAux fuel s).1.length = (scanAux fuel s).2.length + 1 := by
  induction fuel with
  | zero => intro s; simp [scanAux]
  | succ n ih =>
    intro s
    match s with
    | [] => simp [scanAux]
    | c :: cs =>
      cases h : markerLen (c :: cs) with
      | some k =>
        simp only [scanAux, h]
        simp [ih]
      | none =>
        cases h2 : (scanAux n cs).1 with
        | nil =>
          exfalso
          have := ih cs
          rw [h2] at this
          simp at this
        | cons f fs =>
          have hl := ih cs
          rw [h2] at hl
          simp only [scanAux, h, h2]
          simp at hl ⊢
          omega

theorem joinScan_cons (c : Char) (f : List Char) (fs ms : List (List Char)) :
    joinScan ((c :: f) :: fs) ms = c :: joinScan (f :: fs) ms := by
  cases ms with
  | nil => simp [joinScan]
  | cons m ms2 => simp [joinScan]

theorem scanAux_join (fuel : Nat) : ∀ s : List Char, s.length ≤ fuel →
    joinScan (scanAux fuel s).1 (scanAux fuel s).2 = s := by
  induction fuel with
  | zero =>
    intro s hs
    have hnil : s = [] := List.length_eq_zero.mp (Nat.le_zero.mp hs)
    subst hnil
    simp [scanAux, joinScan]
  | succ n ih =>
    intro s hs
    match s with
    | [] => simp [scanAux, joinScan]
    | c :: cs =>
      cases h : markerLen (c :: cs) with
      | some k =>
        have hk := markerLen_pos _ _ h
        have hlen : ((c :: cs).drop k).length ≤ n := by
          rw [List.length_drop]
          simp only [List.length_cons] at hs ⊢
          omega
        simp only [scanAux, h]
        rw [joinScan]
        rw [ih _ hlen]
        simp [List.take_append_drop]
      | none =>
        have hcs : cs.length ≤ n := by
          simp only [List.length_cons] at hs
          omega
        cases h2 : (scanAux n cs).1 with
        | nil =>
          exfalso
          have := scanAux_length n cs
          rw [h2] at this
          simp at this
        | cons f fs =>
          simp only [scanAux, h, h2]
          rw [joinScan_cons]
          have hj := ih cs hcs
          rw [h2] at hj
          rw [hj]

theorem buildSlides_length (hs fs : List (List Char)) :
    (buildSlides hs fs).length = hs.length := by
  simp [buildSlides]

theorem buildSlides_getD (hs fs : List (List Char)) (i : Nat) (d : SlideRec)
    (h : i < hs.length) :
    (buildSlides hs fs).getD i d = buildRecord i (fs.getD (i + 1) []) := by
  unfold buildSlides
  rw [List.getD_eq_getElem]
  · simp
  · simpa using h

theorem occursTitle_false_iff (s : List Char) :
    occursTitle s = false ↔ searchTitle s = none := by
  induction s with
  | nil => simp [occursTitle, searchTitle]
  | cons c cs ih =>
    cases h : matchLit ("**Title:**".data) (c :: cs) with
    | some r => simp [occursTitle, searchTitle, h]
    | none => simp [occursTitle, searchTitle, h, ih]

theorem plumberGo_no_exc (pages : List String) : ∀ (i : Nat) (t : String),
    (plumberGo none pages i t).2 = none := by
  induction pages with
  | nil => intro i t; simp [plumberGo]
  | cons pt rest ih =>
    intro i t
    simp only [plumberGo]
    split <;> split
    · rfl
    · exact ih _ _
    · rfl
    · exact ih _ _

theorem readerGo_no_exc (pages : List String) : ∀ t : String,
    (readerGo none pages t).2 = none := by
  induction pages with
  | nil => intro t; simp [readerGo]
  | cons pt rest ih =>
    intro t
    simp only [readerGo]
    split
    · rfl
    · exact ih _

/-- C1 counterexample: on the spec's concrete example input the parser does
NOT produce `[{title:"A", bullets:["B1","B2"]}, {title:"C", bullets:[]}]`:
the title regex group keeps the surrounding quote characters, and the bullet
pattern `\*\s+(.*)` also matches the `* **Title:** ...` line itself. -/
theorem spec_example_records_refuted :
    parseSlides c1Input ≠
      [SlideRec.mk "A" ["B1", "B2"], SlideRec.mk "C" []] := by decide

/-- C1 amended: on the spec's concrete example input the parser produces
records whose titles keep the surrounding quotes and whose bullet lists
include the Title line (followed by the genuine bullets). -/
theorem spec_example_records_actual :
    parseSlides c1Input =
      [SlideRec.mk "\"A\"" ["**Title:** \"A\"", "B1", "B2"],
       SlideRec.mk "\"C\"" ["**Title:** \"C\""]] := by decide

/-- C2: for every input text the parser produces exactly one slide record
per slide marker, in marker order: the record count equals the `findall`
match count, the split yields exactly one more fragment than there are
markers, interleaving fragments with the matches reconstructs the input (so
fragment `i+1` is the body following the i-th marker in textual order), and
the i-th record is built from fragment `i+1`. -/
theorem parser_one_record_per_marker (s : String) :
    (parseSlides s).length = (scanMarkers s.data).2.length ∧
    (scanMarkers s.data).1.length = (scanMarkers s.data).2.length + 1 ∧
    joinScan (scanMarkers s.data).1 (scanMarkers s.data).2 = s.data ∧
    ∀ i : Nat, i < (scanMarkers s.data).2.length →
      (parseSlides s).getD i (SlideRec.mk "" []) =
        buildRecord i ((scanMarkers s.data).1.getD (i + 1) []) := by
  refine ⟨?_, ?_, ?_, ?_⟩
  · unfold parseSlides
    exact buildSlides_length _ _
  · exact scanAux_length _ _
  · exact scanAux_join _ _ (le_refl _)
  · intro i hi
    unfold parseSlides
    exact buildSlides_getD _ _ i _ hi

/-- C2 witness: the theorem instantiated at the concrete example input, for
marker index 1. -/
theorem parser_one_record_per_marker_witness :
    (parseSlides c1Input).getD 1 (SlideRec.mk "" []) =
      buildRecord 1 ((scanMarkers c1Input.data).1.getD 2 []) :=
  (parser_one_record_per_marker c1Input).2.2.2 1 (by decide)

/-- C3 (code bug): one conversation turn whose remote `send_message` raises.
The except clause renders `Error: <text>` inline and the previously
accumulated history is preserved (plus the already-appended user message),
but the unconditional `messages.append({..., "content": response.text})`
after the try/except references the never-assigned local `response` and
raises `UnboundLocalError`, which escapes the handler — contradicting the
claim that the exception is not re-raised out of the handler. -/
theorem chat_turn_failure_escapes :
    chatTurn (fun _ => Except.error "network down")
        [ChatMessage.mk "assistant" "Hi! Ready to help with your PDF."]
        "What is this PDF about?" =
      TurnResult.mk
        [ChatMessage.mk "assistant" "Hi! Ready to help with your PDF.",
         ChatMessage.mk "user" "What is this PDF about?"]
        ["What is this PDF about?", "Error: network down"]
        (some "UnboundLocalError") := by decide

/-- C4: on a successful remote reply the per-tab message sequence grows by
exactly 2 — the user message appended strictly before the assistant reply —
and the previously appended messages are preserved unchanged as a prefix. -/
theorem chat_turn_success_appends_two (send : String → Except String String)
    (msgs : List ChatMessage) (prompt t : String)
    (h : send prompt = Except.ok t) :
    (chatTurn send msgs prompt).messages =
        msgs ++ [ChatMessage.mk "user" prompt, ChatMessage.mk "assistant" t] ∧
    (chatTurn send msgs prompt).messages.length = msgs.length + 2 ∧
    (chatTurn send msgs prompt).messages.take msgs.length = msgs := by
  unfold chatTurn
  rw [h]
  refine ⟨by simp, by simp, ?_⟩
  simp only [List.append_assoc, List.cons_append, List.nil_append]
  exact List.take_left msgs _

/-- C4 witness: the theorem instantiated at a concrete successful turn. -/
theorem chat_turn_success_appends_two_witness :
    (chatTurn (fun _ => Except.ok "It is a report.")
        [ChatMessage.mk "assistant" "Hi! Ready to help with your PDF."]
        "What is this PDF about?").messages =
      [ChatMessage.mk "assistant" "Hi! Ready to help with your PDF."] ++
        [ChatMessage.mk "user" "What is this PDF about?",
         ChatMessage.mk "assistant" "It is a report."] :=
  (chat_turn_success_appends_two (fun _ => Except.ok "It is a report.")
    [ChatMessage.mk "assistant" "Hi! Ready to help with your PDF."]
    "What is this PDF about?" "It is a report." rfl).1

/-- C5: the parser is a total function of the input (the embedding of source
lines 207-213 returns a plain list — nothing in that block can raise), and
on an input with no slide markers it yields zero records, while the renderer
still produces a presentation consisting of only the title slide. -/
theorem parser_no_markers_title_slide_only (s pptTitle dateStr : String)
    (h : (scanMarkers s.data).2 = []) :
    parseSlides s = [] ∧
    renderPresentation pptTitle dateStr (parseSlides s) =
      [titleSlide pptTitle dateStr] := by
  have hp : parseSlides s = [] := by
    unfold parseSlides buildSlides
    rw [h]
    rfl
  refine ⟨hp, ?_⟩
  rw [hp]
  rfl

/-- C5 witness: the theorem instantiated at a marker-free input. -/
theorem parser_no_markers_title_slide_only_witness :
    parseSlides "no markers here" = [] ∧
    renderPresentation "Business Report" "12 October 2026"
        (parseSlides "no markers here") =
      [titleSlide "Business Report" "12 October 2026"] :=
  parser_no_markers_title_slide_only "no markers here" "Business Report"
    "12 October 2026" (by decide)

/-- C6: in the per-marker loop, when fewer than `i+2` split fragments exist,
the guarded indexing `slides[i+1] if i+1 < len(slides) else ""` (source line
210) makes the slide body the empty string; the loop body is a total
function of the two lists, so no out-of-bounds error can be raised. -/
theorem missing_fragment_empty_body (hs fs : List (List Char)) (i : Nat)
    (d : SlideRec) (h1 : i < hs.length) (h2 : ¬ (i + 1 < fs.length)) :
    (buildSlides hs fs).getD i d = buildRecord i [] := by
  rw [buildSlides_getD hs fs i d h1]
  rw [List.getD_eq_default]
  omega

/-- C6 witness: one marker but zero fragments yields the empty body. -/
theorem missing_fragment_empty_body_witness :
    (buildSlides [['h']] []).getD 0 (SlideRec.mk "" []) = buildRecord 0 [] :=
  missing_fragment_empty_body [['h']] [] 0 (SlideRec.mk "" []) (by decide)
    (by decide)

/-- C7: when a slide body contains no occurrence of the `**Title:**` pattern,
the produced record's title is the synthesized fallback `"Slide {i+2}"`
(source line 212), `i` being the zero-based marker index. -/
theorem no_title_line_fallback (s : String) (i : Nat)
    (hi : i < (scanMarkers s.data).2.length)
    (hno : occursTitle ((scanMarkers s.data).1.getD (i + 1) []) = false) :
    ((parseSlides s).getD i (SlideRec.mk "" [])).title =
      "Slide " ++ toString (i + 2) := by
  unfold parseSlides
  rw [buildSlides_getD _ _ i _ hi]
  have hs2 : searchTitle ((scanMarkers s.data).1.getD (i + 1) []) = none :=
    (occursTitle_false_iff _).mp hno
  show recordTitle i ((scanMarkers s.data).1.getD (i + 1) []) =
    "Slide " ++ toString (i + 2)
  unfold recordTitle
  rw [hs2]

/-- C7 witness: a one-marker input whose body lacks a Title line gets the
fallback title `Slide 2`. -/
theorem no_title_line_fallback_witness :
    ((parseSlides c7Input).getD 0 (SlideRec.mk "" [])).title =
      "Slide " ++ toString (0 + 2) :=
  no_title_line_fallback c7Input 0 (by decide) (by decide)

/-- C8: the configured `MAX_SLIDES` constant is never applied to the
parser's output: even for an input whose marker count exceeds it, one record
per marker is produced, with no truncation. -/
theorem max_slides_not_applied (s : String)
    (_h : MAX_SLIDES < (scanMarkers s.data).2.length) :
    (parseSlides s).length = (scanMarkers s.data).2.length := by
  unfold parseSlides
  exact buildSlides_length _ _

set_option maxRecDepth 40000 in
/-- C8 witness: an input with eleven markers (one more than `MAX_SLIDES`)
still yields eleven records. -/
theorem max_slides_not_applied_witness :
    MAX_SLIDES < (scanMarkers c8Input.data).2.length ∧
    (parseSlides c8Input).length = (scanMarkers c8Input.data).2.length :=
  ⟨by decide, max_slides_not_applied c8Input (by decide)⟩

/-- C9 counterexample: when the fallback library itself raises (here: both
libraries raise), the exception escapes the extraction block — refuting "no
extraction failure escapes the handler invocation". -/
theorem extraction_fallback_exception_escapes :
    extractText [] (some "pdfplumber failed") [] (some "PdfReader failed") =
      ExtractOutcome.raised "PdfReader failed" := by decide

/-- C9 amended: the primary library is attempted first and on its success
the fallback is never consulted (the outcome does not depend on the reader
oracle); an exception from the primary triggers the fallback; and when both
libraries complete with no text accumulated, the handler surfaces the
user-visible error and returns without raising.  Only an exception raised by
the fallback library escapes (see the counterexample). -/
theorem extraction_fallback_design :
    (∀ pPages rPages rExc, extractText pPages none rPages rExc =
        (if (plumberGo none pPages 0 "").1 = "" then ExtractOutcome.errorBanner
         else ExtractOutcome.ok (plumberGo none pPages 0 "").1)) ∧
    (∀ pPages e rPages t1 e1,
        plumberGo (some e) pPages 0 "" = (t1, some e1) →
        (readerGo none rPages t1).1 = "" →
        extractText pPages (some e) rPages none = ExtractOutcome.errorBanner) := by
  constructor
  · intro pPages rPages rExc
    simp [extractText, plumberGo_no_exc]
  · intro pPages e rPages t1 e1 hp hr
    simp [extractText, hp, readerGo_no_exc, hr]

/-- C9 witness: the amended theorem instantiated at concrete oracles. -/
theorem extraction_fallback_design_witness :
    extractText ["x"] none ["y"] (some "z") =
      (if (plumberGo none ["x"] 0 "").1 = "" then ExtractOutcome.errorBanner
       else ExtractOutcome.ok (plumberGo none ["x"] 0 "").1) ∧
    extractText [] (some "boom") [] none = ExtractOutcome.errorBanner :=
  ⟨extraction_fallback_design.1 ["x"] ["y"] (some "z"),
   extraction_fallback_design.2 [] "boom" [] "" "boom" (by decide) (by decide)⟩

/-- C10: the slide-structure parser is deterministic: two runs on equal
input texts yield structurally identical record lists. -/
theorem parser_deterministic (s t : String) (h : s = t) :
    parseSlides s = parseSlides t := by
  rw [h]

/-- C10 witness: the theorem instantiated at a concrete input. -/
theorem parser_deterministic_witness :
    parseSlides c7Input = parseSlides c7Input :=
  parser_deterministic c7Input c7Input rfl
